import Mathlib

/-!
Verification of the SkillSPrint backend (backend/server.js).

The server is a hand-written Node HTTP dispatcher: it authenticates via the
X-User-Id header, authorizes admin actions by a role lookup, and maps
(method, path) pairs to parameterized SQL over users, sprints, lessons,
progress, notes and lesson reflections, plus a static file server for
/uploads.  This file gives a shallow embedding of the handlers the claims
touch: database state is an explicit record of row lists, the wall clock is
an explicit `now : Nat` parameter (MySQL NOW()), and the outcome of a SQL
query that can fail is an explicit `Option DbErr` parameter fed to the
handler's error-mapping branch, exactly as the source inspects `err.code`
in its query callbacks.
-/

namespace SkillSprint

/-- JavaScript `parseInt(s, 10)`: skip leading whitespace, an optional
sign, then the longest leading run of decimal digits; `none` models `NaN`
(no digits at all). -/
def jsParseInt (s : String) : Option Int :=
  let cs := s.data.dropWhile (fun c => c = ' ' || c = '\t' || c = '\n' || c = '\r')
  match cs with
  | '-' :: rest =>
      let ds := rest.takeWhile (·.isDigit)
      if ds.isEmpty then none
      else some (-(ds.foldl (fun acc c => acc * 10 + (c.toNat - 48)) 0 : Int))
  | '+' :: rest =>
      let ds := rest.takeWhile (·.isDigit)
      if ds.isEmpty then none
      else some ((ds.foldl (fun acc c => acc * 10 + (c.toNat - 48)) 0 : Int))
  | _ =>
      let ds := cs.takeWhile (·.isDigit)
      if ds.isEmpty then none
      else some ((ds.foldl (fun acc c => acc * 10 + (c.toNat - 48)) 0 : Int))

/-- `const userId = userIdHeader ? parseInt(userIdHeader, 10) : null;`
(an absent or empty header is falsy and yields `null`). -/
def parsedUserId (h : Option String) : Option Int :=
  match h with
  | none => none
  | some s => if s = "" then none else jsParseInt s

/-- The `authenticate` helper: `if (!userId || isNaN(userId) || userId <= 0)`
the request is rejected with 401; otherwise `userId` is the identity.
`none` is the rejected case. -/
def authUserId (h : Option String) : Option Int :=
  match parsedUserId h with
  | none => none
  | some v => if v ≤ 0 then none else some v

/-- Body of an HTTP response: a JSON `{error: string}` envelope from
`sendResponse`, some other JSON success payload, a raw body with an explicit
content type (the uploads file server), or no body at all (204). -/
inductive RespBody where
  | errJson (msg : String)
  | okJson
  | raw (ctype : String) (content : String)
  | empty
deriving DecidableEq, Repr

structure Response where
  status : Nat
  body : RespBody
deriving DecidableEq, Repr

/-- Whether a response body is the JSON `{error: string}` envelope. -/
def isErrJson : RespBody → Bool
  | .errJson _ => true
  | _ => false

/-- A non-2xx status code. -/
def non2xx (r : Response) : Prop := r.status < 200 ∨ 300 ≤ r.status

/-- MySQL error codes the source's query callbacks inspect. -/
inductive DbErr where
  | er_no_referenced_row_2
  | er_bad_null_error
  | er_dup_entry
  | other
deriving DecidableEq, Repr

/-- A row of the `users` table.  `role` is nullable (`none` models SQL NULL). -/
structure UserRow where
  id : Int
  name : String
  email : String
  role : Option String
  streak_days : Int
deriving DecidableEq, Repr

/-- A row of the `sprints` table. -/
structure SprintRow where
  id : Int
  title : String
  description : String
  video_url : String
  max_duration_seconds : Int
  is_active : Bool
  thumbnail_url : Option String
deriving DecidableEq, Repr

/-- A row of the `lesson_reflections` table.  Timestamps are abstract `Nat`
clock readings (MySQL NOW()); `lesson_id` is kept as the raw path segment the
handlers bind into the SQL. -/
structure ReflRow where
  id : Int
  user_id : Int
  lesson_id : String
  reflection_text : String
  status : String
  score : Option Int
  admin_feedback : Option String
  submitted_at : Option Nat
  marked_at : Option Nat
  created_at : Nat
  updated_at : Nat
deriving DecidableEq, Repr

/-- The database state the modelled handlers read and write.  The `next…Id`
counters model AUTO_INCREMENT keys. -/
structure Db where
  users : List UserRow
  sprints : List SprintRow
  reflections : List ReflRow
  nextReflId : Int
  nextSprintId : Int
deriving DecidableEq, Repr

/-- The (user_id, lesson_id) unique-key predicate of the reflection upserts. -/
def reflKey (uid : Int) (lid : String) (r : ReflRow) : Bool :=
  r.user_id == uid && r.lesson_id == lid

/-- The primary-key predicate on reflection rows. -/
def idKey (rid : Int) (r : ReflRow) : Bool :=
  r.id == rid

/-- The primary-key predicate on user rows. -/
def userKey (uid : Int) (u : UserRow) : Bool :=
  u.id == uid

/-- The primary-key predicate on sprint rows. -/
def sprKey (sid : Int) (s : SprintRow) : Bool :=
  s.id == sid

/-- The `authorizeAdmin` role lookup:
`SELECT role FROM users WHERE id = ?`, rejecting unless a row exists whose
role is exactly the string 'admin' (`err || results.length === 0 ||
results[0].role !== 'admin'` all lead to 403). -/
def isAdminRow (db : Db) (uid : Int) : Bool :=
  match db.users.find? (userKey uid) with
  | none => false
  | some u => u.role == some "admin"

/-- First `lesson_reflections` row keyed on the (user_id, lesson_id) unique
pair — the key of every reflection upsert. -/
def findRefl (db : Db) (uid : Int) (lid : String) : Option ReflRow :=
  db.reflections.find? (reflKey uid lid)

/-- First `lesson_reflections` row with the given primary key. -/
def findReflById (db : Db) (rid : Int) : Option ReflRow :=
  db.reflections.find? (idKey rid)

/-! ## Static file serving for /uploads -/

/-- Path normalization performed by Node's `path.join`: empty and `.`
segments vanish, `..` pops the previous segment (and is dropped at the
filesystem root, as for an absolute path). -/
def normSegs (segs : List String) : List String :=
  segs.foldl
    (fun acc s =>
      if s = "" then acc
      else if s = "." then acc
      else if s = ".." then acc.dropLast
      else acc ++ [s])
    []

/-- The fixed uploads root, `path.join(path.resolve(), 'uploads')`, as an
absolute segment list. -/
def uploadsRoot : List String := ["srv", "uploads"]

/-- `path.join(UPLOADS_DIR, pathSegments.slice(1).join('/'))`: the request's
segments after `uploads` are joined under the root and normalized. -/
def uploadsResolve (segs : List String) : List String :=
  normSegs (uploadsRoot ++ segs)

/-- Whether path `p` lies under directory `root`. -/
def pathIsUnder (root p : List String) : Bool :=
  root == p.take root.length

/-- Whether a filename's (lowercased) extension is `.mp4`. -/
def hasMp4Ext (nm : String) : Bool :=
  nm.data.reverse.take 4 == ['4', 'p', 'm', '.']

/-- Content type chosen by the handler: `.mp4` maps to `video/mp4`,
anything else to `application/octet-stream`. -/
def mimeFor (p : List String) : String :=
  match p.getLast? with
  | some nm => if hasMp4Ext nm then "video/mp4" else "application/octet-stream"
  | none => "application/octet-stream"

/-- The GET /uploads/* handler over a filesystem given as a list of
(absolute path, content) pairs.  A failed `fs.stat` produces a plain-text
404 `File Not Found` (not a JSON envelope); otherwise the bytes of the file
at the resolved path are served.  Range requests alter only which byte span
of the same file is returned, so they are not distinguished here. -/
def uploadsGet (fsys : List (List String × String)) (segs : List String) : Response :=
  let p := uploadsResolve segs
  match fsys.find? (fun f => f.1 == p) with
  | none => ⟨404, .raw "text/plain" "File Not Found"⟩
  | some f => ⟨200, .raw (mimeFor p) f.2⟩

/-! ## Progress and notes upserts

A request body is `Option B` for the route's shape `B`: `none` is a body
whose `JSON.parse` throws (the catch branch).  Fields absent from the JSON
object are `none` inside `B`. -/

def authRequiredResp : Response :=
  ⟨401, .errJson "Authentication required. X-User-Id header is missing or invalid."⟩

structure ProgressBody where
  sprint_id : Option Int
  progress_percentage : Option Int
  is_completed : Option Bool
deriving DecidableEq, Repr

/-- `if (!sprintId || progressPercent === undefined || isCompleted === undefined)`:
`sprint_id` must be present and truthy (0 is falsy), the other two merely
present. -/
def progressBodyOk (b : ProgressBody) : Bool :=
  (match b.sprint_id with
   | some v => v != 0
   | none => false)
  && b.progress_percentage.isSome && b.is_completed.isSome

/-- POST/PUT /api/progress.  `qerr` is the outcome of the upsert query; the
handler maps `ER_NO_REFERENCED_ROW_2`/`ER_BAD_NULL_ERROR` to 400 and every
other error to 500.  (The row written by the upsert is not needed by any
claim, so the response alone is modelled.) -/
def progressPost (h : Option String) (body : Option ProgressBody)
    (qerr : Option DbErr) : Response :=
  match authUserId h with
  | none => authRequiredResp
  | some _ =>
    match body with
    | none => ⟨400, .errJson "Invalid JSON input for progress update."⟩
    | some b =>
      if progressBodyOk b = false then
        ⟨400, .errJson "sprintId, progressPercent, and isCompleted are required."⟩
      else
        match qerr with
        | some .er_no_referenced_row_2 =>
            ⟨400, .errJson "Validation failed: Sprint or User ID does not exist. (Foreign Key Check Failed)"⟩
        | some .er_bad_null_error =>
            ⟨400, .errJson "Validation failed: Sprint or User ID does not exist. (Foreign Key Check Failed)"⟩
        | some _ =>
            ⟨500, .errJson "Failed to save sprint progress. Database error logged on server."⟩
        | none => ⟨200, .okJson⟩

structure NotesBody where
  contentType : Option String
  contentId : Option String
  noteText : Option String
deriving DecidableEq, Repr

/-- `if (!contentType || contentId === undefined || noteText === undefined)`. -/
def notesBodyOk (b : NotesBody) : Bool :=
  (match b.contentType with
   | some t => t != ""
   | none => false)
  && b.contentId.isSome && b.noteText.isSome

/-- POST/PUT /api/notes.  On a query error the handler picks a
foreign-key/duplicate-specific client message but then sends it with status
500 unconditionally — `sendResponse(500, { error: clientError })` is the
only error exit of the callback. -/
def notesPost (h : Option String) (body : Option NotesBody)
    (qerr : Option DbErr) : Response :=
  match authUserId h with
  | none => authRequiredResp
  | some _ =>
    match body with
    | none => ⟨400, .errJson "Invalid JSON input for note update."⟩
    | some b =>
      if notesBodyOk b = false then
        ⟨400, .errJson "contentType, contentId, and noteText are required."⟩
      else
        match qerr with
        | none => ⟨200, .okJson⟩
        | some e =>
          let clientError :=
            if e = .er_no_referenced_row_2 ∨ e = .er_bad_null_error then
              "Error saving note: Validation failed. Content or User ID does not exist. (Foreign Key Check Failed)"
            else if e = .er_dup_entry then
              "Error saving note: Duplicate content entry. (Unique Key Check Failed)"
            else
              "Failed to save user note (Database error). Please check server logs."
          ⟨500, .errJson clientError⟩

/-! ## Reflection workflow -/

structure ReflBody where
  reflection_text : Option String
deriving DecidableEq, Repr

/-- Truthiness of `reflection_text` for the draft save (`!reflection_text`). -/
def draftTextOk (o : Option String) : Bool :=
  match o with
  | some t => t != ""
  | none => false

/-- ASCII whitespace recognized by JavaScript's trim (the characters the
request bodies can realistically contain). -/
def isWs (c : Char) : Bool :=
  c = ' ' || c = '\t' || c = '\n' || c = '\r'

/-- JavaScript `String.prototype.trim`: strip whitespace from both ends. -/
def jsTrim (s : String) : String :=
  ⟨((s.data.dropWhile isWs).reverse.dropWhile isWs).reverse⟩

/-- Truthiness of `reflection_text?.trim()` for submit/resubmit. -/
def trimTextOk (o : Option String) : Bool :=
  match o with
  | some t => jsTrim t != ""
  | none => false

/-- POST /api/lessons/:id/reflection — save draft: upsert the text and force
status back to 'draft' (ON DUPLICATE KEY UPDATE leaves submitted_at alone). -/
def reflSave (db : Db) (now : Nat) (h : Option String) (lid : String)
    (body : Option ReflBody) (qerr : Option DbErr) : Response × Db :=
  match authUserId h with
  | none => (authRequiredResp, db)
  | some uid =>
    match body with
    | none => (⟨400, .errJson "Invalid JSON input"⟩, db)
    | some b =>
      if draftTextOk b.reflection_text = false then
        (⟨400, .errJson "Reflection text is required"⟩, db)
      else
        match qerr with
        | some _ => (⟨500, .errJson "Failed to save reflection"⟩, db)
        | none =>
          let t := b.reflection_text.getD ""
          match findRefl db uid lid with
          | some _ =>
            (⟨200, .okJson⟩,
             { db with reflections := db.reflections.map (fun r =>
                 if reflKey uid lid r then
                   { r with reflection_text := t, status := "draft", updated_at := now }
                 else r) })
          | none =>
            (⟨200, .okJson⟩,
             { db with
                 reflections :=
                   ⟨db.nextReflId, uid, lid, t, "draft", none, none, none, none, now, now⟩
                     :: db.reflections,
                 nextReflId := db.nextReflId + 1 })

/-- POST /api/lessons/:id/reflection/submit: upsert with status 'submitted'
and submitted_at = NOW(); creates the row when none exists, otherwise
updates text/status and re-stamps submitted_at, keeping score and feedback. -/
def reflSubmit (db : Db) (now : Nat) (h : Option String) (lid : String)
    (body : Option ReflBody) (qerr : Option DbErr) : Response × Db :=
  match authUserId h with
  | none => (authRequiredResp, db)
  | some uid =>
    match body with
    | none => (⟨400, .errJson "Invalid JSON input"⟩, db)
    | some b =>
      if trimTextOk b.reflection_text = false then
        (⟨400, .errJson "Reflection text cannot be empty"⟩, db)
      else
        match qerr with
        | some _ => (⟨500, .errJson "Failed to submit reflection"⟩, db)
        | none =>
          let t := b.reflection_text.getD ""
          match findRefl db uid lid with
          | some _ =>
            (⟨200, .okJson⟩,
             { db with reflections := db.reflections.map (fun r =>
                 if reflKey uid lid r then
                   { r with reflection_text := t, status := "submitted",
                            submitted_at := some now, updated_at := now }
                 else r) })
          | none =>
            (⟨200, .okJson⟩,
             { db with
                 reflections :=
                   ⟨db.nextReflId, uid, lid, t, "submitted", none, none, some now, none, now, now⟩
                     :: db.reflections,
                 nextReflId := db.nextReflId + 1 })

/-- POST /api/lessons/:id/reflection/resubmit: a plain UPDATE on the
(user_id, lesson_id) key; when it matches no row (`affectedRows === 0`) the
handler answers 404 and nothing is written. -/
def reflResubmit (db : Db) (now : Nat) (h : Option String) (lid : String)
    (body : Option ReflBody) (qerr : Option DbErr) : Response × Db :=
  match authUserId h with
  | none => (authRequiredResp, db)
  | some uid =>
    match body with
    | none => (⟨400, .errJson "Invalid JSON input"⟩, db)
    | some b =>
      if trimTextOk b.reflection_text = false then
        (⟨400, .errJson "Reflection text cannot be empty"⟩, db)
      else
        match qerr with
        | some _ => (⟨500, .errJson "Failed to resubmit reflection"⟩, db)
        | none =>
          let t := b.reflection_text.getD ""
          match findRefl db uid lid with
          | none => (⟨404, .errJson "Reflection not found"⟩, db)
          | some _ =>
            (⟨200, .okJson⟩,
             { db with reflections := db.reflections.map (fun r =>
                 if reflKey uid lid r then
                   { r with reflection_text := t, status := "submitted",
                            submitted_at := some now, updated_at := now }
                 else r) })

/-- GET /api/reflections/submitted (admin-only): authenticate, then
`authorizeAdmin`, then list the reflections with status 'submitted'. -/
def reflSubmittedGet (db : Db) (h : Option String) (qerr : Option DbErr) :
    Response × List ReflRow :=
  match authUserId h with
  | none => (authRequiredResp, [])
  | some uid =>
    if isAdminRow db uid = false then
      (⟨403, .errJson "Admin access required"⟩, [])
    else
      match qerr with
      | some _ => (⟨500, .errJson "Failed to fetch submitted reflections"⟩, [])
      | none => (⟨200, .okJson⟩, db.reflections.filter (fun r => r.status == "submitted"))

structure MarkBody where
  reflection_id : Option Int
  score : Option Int
  admin_feedback : Option String
  status : Option String
deriving DecidableEq, Repr

/-- `if (!reflection_id || score === undefined || !admin_feedback)`:
`reflection_id` must be truthy, `score` merely present, `admin_feedback`
truthy (empty feedback is rejected). -/
def markBodyOk (b : MarkBody) : Bool :=
  (match b.reflection_id with
   | some v => v != 0
   | none => false)
  && b.score.isSome
  && (match b.admin_feedback with
      | some f => f != ""
      | none => false)

/-- POST /api/reflections/mark (admin-only): required-field check, score
range check, status whitelist, then an UPDATE by primary key with 404 when
no row matches. -/
def reflMark (db : Db) (now : Nat) (h : Option String)
    (body : Option MarkBody) (qerr : Option DbErr) : Response × Db :=
  match authUserId h with
  | none => (authRequiredResp, db)
  | some uid =>
    if isAdminRow db uid = false then
      (⟨403, .errJson "Admin access required"⟩, db)
    else
      match body with
      | none => (⟨400, .errJson "Invalid JSON input"⟩, db)
      | some b =>
        if markBodyOk b = false then
          (⟨400, .errJson "Reflection ID, score, and feedback are required"⟩, db)
        else
          let s := b.score.getD 0
          if s < 0 ∨ 10 < s then
            (⟨400, .errJson "Score must be between 0 and 10"⟩, db)
          else if (b.status == some "marked" || b.status == some "rejected") = false then
            (⟨400, .errJson "Status must be 'marked' or 'rejected'"⟩, db)
          else
            match qerr with
            | some _ => (⟨500, .errJson "Failed to mark reflection"⟩, db)
            | none =>
              let rid := b.reflection_id.getD 0
              let fb := b.admin_feedback.getD ""
              let st := b.status.getD ""
              match db.reflections.find? (idKey rid) with
              | none => (⟨404, .errJson "Reflection not found"⟩, db)
              | some _ =>
                (⟨200, .okJson⟩,
                 { db with reflections := db.reflections.map (fun r =>
                     if idKey rid r then
                       { r with score := some s, admin_feedback := some fb,
                                status := st, marked_at := some now, updated_at := now }
                     else r) })

/-! ## Sprint management

None of these handlers calls `authenticate()` or `authorizeAdmin`: the
`h` argument is in scope (the X-User-Id header) but never read, exactly as
`userId` is unused in the corresponding source branches. -/

structure SprintBody where
  title : Option String
  description : Option String
  video_url : Option String
  max_duration_minutes : Option String
  thumbnail_url : Option String
deriving DecidableEq, Repr

/-- `if (!title || !description || !video_url || max_duration_minutes === undefined)`. -/
def sprintBodyOk (b : SprintBody) : Bool :=
  (match b.title with | some t => t != "" | none => false)
  && (match b.description with | some d => d != "" | none => false)
  && (match b.video_url with | some v => v != "" | none => false)
  && b.max_duration_minutes.isSome

/-- `parseInt(max_duration_minutes, 10) * 60`, then
`if (isNaN(s) || s <= 0) s = 600; if (s > 3600) s = 3600;`.  A JSON number
is stringified by `parseInt` first, so the field is modelled as the string
it parses. -/
def durationSeconds (m : String) : Int :=
  match jsParseInt m with
  | none => 600
  | some v =>
    let s := v * 60
    if s ≤ 0 then 600 else if 3600 < s then 3600 else s

/-- `thumbnail_url || null`: an absent or empty thumbnail becomes NULL. -/
def thumbOrNull (o : Option String) : Option String :=
  match o with
  | some t => if t = "" then none else some t
  | none => none

/-- POST /api/sprints: validate, insert a row with `is_active = 0` and the
bounded duration, answer 201 with the created record. -/
def sprintsCreate (h : Option String) (db : Db) (body : Option SprintBody)
    (qerr : Option DbErr) : Response × Db :=
  match body with
  | none => (⟨400, .errJson "Invalid JSON input for sprint creation."⟩, db)
  | some b =>
    if sprintBodyOk b = false then
      (⟨400, .errJson "Title, description, video URL (or simulated path), and max duration are required."⟩, db)
    else
      match qerr with
      | some _ => (⟨500, .errJson "Failed to create new sprint in database."⟩, db)
      | none =>
        let row : SprintRow :=
          ⟨db.nextSprintId, (b.title).getD "", (b.description).getD "",
           (b.video_url).getD "", durationSeconds ((b.max_duration_minutes).getD ""),
           false, thumbOrNull b.thumbnail_url⟩
        (⟨201, .okJson⟩,
         { db with sprints := row :: db.sprints, nextSprintId := db.nextSprintId + 1 })

/-- DELETE /api/sprints/:id: 404 when no row matches, otherwise a 204 with
no body. -/
def sprintsDelete (h : Option String) (db : Db) (sid : Int)
    (qerr : Option DbErr) : Response × Db :=
  match qerr with
  | some _ => (⟨500, .errJson "Failed to delete sprint"⟩, db)
  | none =>
    match db.sprints.find? (sprKey sid) with
    | none => (⟨404, .errJson "Sprint not found"⟩, db)
    | some _ =>
      (⟨204, .empty⟩, { db with sprints := db.sprints.filter (fun s => (sprKey sid s) = false) })

structure ActiveBody where
  shouldActivate : Bool
deriving DecidableEq, Repr

/-- PUT /api/sprints/:id/active.  On activation the handler first runs
`UPDATE sprints SET is_active = 0 WHERE id != ?`; `qdeact` is the outcome
of that query.  Its error is only logged, never propagated: the callback
proceeds to set the target active regardless, so a failed deactivation
(statement rolled back, rows unchanged) still reaches the 200 path.  The
deactivation does persist even when the target then turns out not to exist
(404).  `qerr` is the outcome of the target UPDATE; on the plain
deactivation path no deactivate-others query runs and `qdeact` is unused. -/
def sprintsActivePut (h : Option String) (db : Db) (sid : Int)
    (body : Option ActiveBody) (qdeact qerr : Option DbErr) : Response × Db :=
  match body with
  | none => (⟨400, .errJson "Invalid JSON input for sprint status update"⟩, db)
  | some b =>
    if b.shouldActivate then
      let db1 : Db :=
        match qdeact with
        | some _ => db
        | none =>
          { db with sprints := db.sprints.map (fun s =>
              if sprKey sid s then s else { s with is_active := false }) }
      match qerr with
      | some _ => (⟨500, .errJson "Failed to update sprint status"⟩, db1)
      | none =>
        match db1.sprints.find? (sprKey sid) with
        | none => (⟨404, .errJson "Sprint not found"⟩, db1)
        | some _ =>
          (⟨200, .okJson⟩,
           { db1 with sprints := db1.sprints.map (fun s =>
               if sprKey sid s then { s with is_active := true } else s) })
    else
      match qerr with
      | some _ => (⟨500, .errJson "Failed to update sprint status"⟩, db)
      | none =>
        match db.sprints.find? (sprKey sid) with
        | none => (⟨404, .errJson "Sprint not found"⟩, db)
        | some _ =>
          (⟨200, .okJson⟩,
           { db with sprints := db.sprints.map (fun s =>
               if sprKey sid s then { s with is_active := false } else s) })

/-! ## User management -/

/-- The role column of the GET /api/users listing:
`COALESCE(role, CASE WHEN id = 1 THEN 'admin' ELSE 'user' END)`. -/
def listedRole (u : UserRow) : String :=
  match u.role with
  | some r => r
  | none => if u.id = 1 then "admin" else "user"

/-- A row of the users listing as returned to the client (password never
selected). -/
structure UserView where
  id : Int
  name : String
  email : String
  streak_days : Int
  role : String
deriving DecidableEq, Repr

/-- GET /api/users: no authentication; every user with the coalesced role. -/
def usersGet (db : Db) : Response × List UserView :=
  (⟨200, .okJson⟩,
   db.users.map (fun u => ⟨u.id, u.name, u.email, u.streak_days, listedRole u⟩))

/-- DELETE /api/users/:id: no authentication; 404 when no row matches. -/
def usersDelete (h : Option String) (db : Db) (uid : Int)
    (qerr : Option DbErr) : Response × Db :=
  match qerr with
  | some _ => (⟨500, .errJson "Failed to delete user"⟩, db)
  | none =>
    match db.users.find? (userKey uid) with
    | none => (⟨404, .errJson "User not found"⟩, db)
    | some _ =>
      (⟨204, .empty⟩, { db with users := db.users.filter (fun u => (userKey uid u) = false) })

structure RoleBody where
  newRole : Option String
deriving DecidableEq, Repr

/-- PUT /api/users/:id/role: no authentication; the new role must be
exactly 'admin' or 'user'; 404 when no row matches. -/
def usersRolePut (h : Option String) (db : Db) (uid : Int)
    (body : Option RoleBody) (qerr : Option DbErr) : Response × Db :=
  match body with
  | none => (⟨400, .errJson "Invalid JSON input for role update"⟩, db)
  | some b =>
    if (b.newRole == some "admin" || b.newRole == some "user") = false then
      (⟨400, .errJson "Invalid role provided. Must be 'admin' or 'user'."⟩, db)
    else
      match qerr with
      | some _ => (⟨500, .errJson "Failed to update user role"⟩, db)
      | none =>
        match db.users.find? (userKey uid) with
        | none => (⟨404, .errJson "User not found"⟩, db)
        | some _ =>
          (⟨200, .okJson⟩,
           { db with users := db.users.map (fun u =>
               if userKey uid u then { u with role := b.newRole } else u) })

/-! ## Auxiliary predicates and concrete states -/

/-- A response that is either 2xx or carries the JSON error envelope. -/
def envelopeOk (r : Response) : Prop :=
  (200 ≤ r.status ∧ r.status < 300) ∨ isErrJson r.body = true

/-- A small filesystem: one file inside the uploads root and one outside it,
next to the root (as `server.js`/`db.js` would sit next to `uploads/`). -/
def fsysDemo : List (List String × String) :=
  [(["srv", "uploads", "video.mp4"], "VIDEOBYTES"),
   (["srv", "secret.txt"], "TOPSECRET")]

/-- A database with a single non-admin user (id 7, role 'user') and a
single inactive sprint (id 1). -/
def dbDemo : Db :=
  { users := [⟨7, "Eve", "eve@example.com", some "user", 0⟩],
    sprints := [⟨1, "Sprint A", "desc", "uploads/a.mp4", 600, false, none⟩],
    reflections := [],
    nextReflId := 1,
    nextSprintId := 2 }

/-- A database whose only user is id 1 with a NULL role, plus one submitted
reflection. -/
def dbNullRole : Db :=
  { users := [⟨1, "Root", "root@example.com", none, 3⟩],
    sprints := [],
    reflections := [⟨5, 1, "9", "my thoughts", "submitted", none, none, some 10, none, 10, 10⟩],
    nextReflId := 6,
    nextSprintId := 1 }

/-- A database with an admin (id 2) and a submitted reflection (id 5) owned
by user 7. -/
def dbAdmin : Db :=
  { users := [⟨2, "Ada", "ada@example.com", some "admin", 0⟩,
              ⟨7, "Eve", "eve@example.com", some "user", 0⟩],
    sprints := [⟨1, "Sprint A", "desc", "uploads/a.mp4", 600, true, none⟩,
                ⟨2, "Sprint B", "desc", "uploads/b.mp4", 900, false, none⟩],
    reflections := [⟨5, 7, "9", "my thoughts", "submitted", none, none, some 10, none, 10, 10⟩],
    nextReflId := 6,
    nextSprintId := 3 }

/-! ## Helper lemmas -/

/-- Finding after a keyed in-place update: when the update function `f`
preserves the key predicate `p`, updating all matching rows and then
searching is searching and then updating. -/
lemma find?_map_upd {α : Type} (p : α → Bool) (f : α → α)
    (hf : ∀ a, p a = true → p (f a) = true) (l : List α) :
    (l.map (fun a => if p a then f a else a)).find? p = (l.find? p).map f := by
  rw [List.find?_map]
  have hpg : (p ∘ fun a => if p a then f a else a) = p := by
    funext a
    by_cases hp : p a
    · simp [hp, hf a hp]
    · simp [hp]
  rw [hpg]
  cases hfind : l.find? p with
  | none => rfl
  | some a0 =>
    have hp0 := List.find?_some hfind
    simp [hp0]

lemma jsParseInt_empty : jsParseInt "" = none := by decide

/-- Claim C4: a request to an authenticated endpoint is rejected with 401
exactly when the X-User-Id header is absent, non-numeric (its `parseInt`
is NaN), or parses to an integer ≤ 0; every other header value
authenticates as the parsed integer with no further validation. -/
theorem auth_reject_iff (h : Option String) :
    (authUserId h = none ↔
      h = none ∨ ∃ s, h = some s ∧
        (jsParseInt s = none ∨ ∃ v, jsParseInt s = some v ∧ v ≤ 0))
    ∧ ∀ s v, h = some s → jsParseInt s = some v → 0 < v → authUserId h = some v := by
  constructor
  · cases h with
    | none => simp [authUserId, parsedUserId]
    | some s =>
      by_cases hs : s = ""
      · subst hs
        simp [authUserId, parsedUserId, jsParseInt_empty]
      · cases hv : jsParseInt s with
        | none => simp [authUserId, parsedUserId, hs, hv]
        | some v =>
          by_cases hle : v ≤ 0
          · simp [authUserId, parsedUserId, hs, hv, hle]
          · simp [authUserId, parsedUserId, hs, hv, hle]
  · intro s v hs hv hpos
    subst hs
    have hs' : ¬ s = "" := by
      intro he
      subst he
      rw [jsParseInt_empty] at hv
      exact Option.noConfusion hv
    simp [authUserId, parsedUserId, hs', hv]
    omega

/-- Witness for `auth_reject_iff`: the header "42" authenticates as 42. -/
theorem auth_reject_iff_check :
    jsParseInt "42" = some 42 ∧ (0 : Int) < 42 ∧ authUserId (some "42") = some 42 :=
  ⟨by decide, by decide, (auth_reject_iff (some "42")).2 "42" 42 rfl (by decide) (by decide)⟩

/-- Claim C2 (code bug at GET /uploads/*): the handler joins the request
path under the uploads root with no traversal check, so a request whose
path contains `..` segments resolves outside the root and the handler
serves that file's bytes: here `GET /uploads/../secret.txt` answers 200
with the content of a file that is not under the uploads root. -/
theorem uploads_traversal_escape :
    pathIsUnder uploadsRoot (uploadsResolve ["..", "secret.txt"]) = false
    ∧ uploadsGet fsysDemo ["..", "secret.txt"]
        = ⟨200, .raw "application/octet-stream" "TOPSECRET"⟩ := by decide

/-- Counterexample to claim C8 as stated: the 404 for a missing file under
/uploads is sent as `text/plain` "File Not Found", not as a JSON
`{error: string}` envelope. -/
theorem uploads_missing_not_json :
    uploadsGet fsysDemo ["missing.mp4"] = ⟨404, .raw "text/plain" "File Not Found"⟩
    ∧ isErrJson (uploadsGet fsysDemo ["missing.mp4"]).body = false := by decide

lemma uploadsGet_cases (fsys : List (List String × String)) (segs : List String) :
    (uploadsGet fsys segs).status = 200
    ∨ uploadsGet fsys segs = ⟨404, .raw "text/plain" "File Not Found"⟩ := by
  unfold uploadsGet
  try dsimp only
  split
  · exact Or.inr rfl
  · exact Or.inl rfl

lemma envOk_progressPost (h : Option String) (b : Option ProgressBody) (q : Option DbErr) :
    envelopeOk (progressPost h b q) := by
  unfold envelopeOk progressPost authRequiredResp
  try dsimp only
  repeat' split
  all_goals try split_ifs
  all_goals simp [isErrJson]

lemma envOk_notesPost (h : Option String) (b : Option NotesBody) (q : Option DbErr) :
    envelopeOk (notesPost h b q) := by
  unfold envelopeOk notesPost authRequiredResp
  try dsimp only
  repeat' split
  all_goals try split_ifs
  all_goals simp [isErrJson]

lemma envOk_reflSave (db : Db) (now : Nat) (h : Option String) (lid : String)
    (b : Option ReflBody) (q : Option DbErr) :
    envelopeOk (reflSave db now h lid b q).1 := by
  unfold envelopeOk reflSave authRequiredResp
  try dsimp only
  repeat' split
  all_goals try split_ifs
  all_goals simp [isErrJson]

lemma envOk_reflSubmit (db : Db) (now : Nat) (h : Option String) (lid : String)
    (b : Option ReflBody) (q : Option DbErr) :
    envelopeOk (reflSubmit db now h lid b q).1 := by
  unfold envelopeOk reflSubmit authRequiredResp
  try dsimp only
  repeat' split
  all_goals try split_ifs
  all_goals simp [isErrJson]

lemma envOk_reflResubmit (db : Db) (now : Nat) (h : Option String) (lid : String)
    (b : Option ReflBody) (q : Option DbErr) :
    envelopeOk (reflResubmit db now h lid b q).1 := by
  unfold envelopeOk reflResubmit authRequiredResp
  try dsimp only
  repeat' split
  all_goals try split_ifs
  all_goals simp [isErrJson]

lemma envOk_reflSubmittedGet (db : Db) (h : Option String) (q : Option DbErr) :
    envelopeOk (reflSubmittedGet db h q).1 := by
  unfold envelopeOk reflSubmittedGet authRequiredResp
  try dsimp only
  repeat' split
  all_goals try split_ifs
  all_goals simp [isErrJson]

lemma envOk_reflMark (db : Db) (now : Nat) (h : Option String)
    (b : Option MarkBody) (q : Option DbErr) :
    envelopeOk (reflMark db now h b q).1 := by
  unfold envelopeOk reflMark authRequiredResp
  try dsimp only
  repeat' split
  all_goals try split_ifs
  all_goals simp [isErrJson]

lemma envOk_sprintsCreate (h : Option String) (db : Db) (b : Option SprintBody)
    (q : Option DbErr) :
    envelopeOk (sprintsCreate h db b q).1 := by
  unfold envelopeOk sprintsCreate
  try dsimp only
  repeat' split
  all_goals try split_ifs
  all_goals simp [isErrJson]

lemma envOk_sprintsDelete (h : Option String) (db : Db) (sid : Int) (q : Option DbErr) :
    envelopeOk (sprintsDelete h db sid q).1 := by
  unfold envelopeOk sprintsDelete
  try dsimp only
  repeat' split
  all_goals try split_ifs
  all_goals simp [isErrJson]

lemma envOk_sprintsActivePut (h : Option String) (db : Db) (sid : Int)
    (b : Option ActiveBody) (qd q : Option DbErr) :
    envelopeOk (sprintsActivePut h db sid b qd q).1 := by
  unfold envelopeOk sprintsActivePut
  try dsimp only
  repeat' split
  all_goals try split_ifs
  all_goals simp [isErrJson]

lemma envOk_usersGet (db : Db) : envelopeOk (usersGet db).1 := by
  unfold envelopeOk usersGet
  simp

lemma envOk_usersDelete (h : Option String) (db : Db) (uid : Int) (q : Option DbErr) :
    envelopeOk (usersDelete h db uid q).1 := by
  unfold envelopeOk usersDelete
  try dsimp only
  repeat' split
  all_goals try split_ifs
  all_goals simp [isErrJson]

lemma envOk_usersRolePut (h : Option String) (db : Db) (uid : Int)
    (b : Option RoleBody) (q : Option DbErr) :
    envelopeOk (usersRolePut h db uid b q).1 := by
  unfold envelopeOk usersRolePut
  try dsimp only
  repeat' split
  all_goals try split_ifs
  all_goals simp [isErrJson]

lemma envOk_elim {r : Response} (he : envelopeOk r) (hn : non2xx r) :
    isErrJson r.body = true := by
  rcases he with ⟨h1, h2⟩ | hb
  · rcases hn with hlt | hge <;> omega
  · exact hb

/-- Claim C8, amended: every non-2xx response of the modelled handlers
carries the JSON `{error: string}` envelope, with the single exception of
the /uploads branch, whose only non-2xx response is the plain-text 404
`File Not Found` produced when `fs.stat` fails. -/
theorem error_envelope_amended :
    (∀ fsys segs, non2xx (uploadsGet fsys segs) →
      uploadsGet fsys segs = ⟨404, .raw "text/plain" "File Not Found"⟩)
    ∧ (∀ h b q, non2xx (progressPost h b q) → isErrJson (progressPost h b q).body = true)
    ∧ (∀ h b q, non2xx (notesPost h b q) → isErrJson (notesPost h b q).body = true)
    ∧ (∀ db now h lid b q, non2xx (reflSave db now h lid b q).1 →
        isErrJson (reflSave db now h lid b q).1.body = true)
    ∧ (∀ db now h lid b q, non2xx (reflSubmit db now h lid b q).1 →
        isErrJson (reflSubmit db now h lid b q).1.body = true)
    ∧ (∀ db now h lid b q, non2xx (reflResubmit db now h lid b q).1 →
        isErrJson (reflResubmit db now h lid b q).1.body = true)
    ∧ (∀ db h q, non2xx (reflSubmittedGet db h q).1 →
        isErrJson (reflSubmittedGet db h q).1.body = true)
    ∧ (∀ db now h b q, non2xx (reflMark db now h b q).1 →
        isErrJson (reflMark db now h b q).1.body = true)
    ∧ (∀ h db b q, non2xx (sprintsCreate h db b q).1 →
        isErrJson (sprintsCreate h db b q).1.body = true)
    ∧ (∀ h db sid q, non2xx (sprintsDelete h db sid q).1 →
        isErrJson (sprintsDelete h db sid q).1.body = true)
    ∧ (∀ h db sid b qd q, non2xx (sprintsActivePut h db sid b qd q).1 →
        isErrJson (sprintsActivePut h db sid b qd q).1.body = true)
    ∧ (∀ db, non2xx (usersGet db).1 → isErrJson (usersGet db).1.body = true)
    ∧ (∀ h db uid q, non2xx (usersDelete h db uid q).1 →
        isErrJson (usersDelete h db uid q).1.body = true)
    ∧ (∀ h db uid b q, non2xx (usersRolePut h db uid b q).1 →
        isErrJson (usersRolePut h db uid b q).1.body = true) := by
  refine ⟨?_, ?_, ?_, ?_, ?_, ?_, ?_, ?_, ?_, ?_, ?_, ?_, ?_, ?_⟩
  · intro fsys segs hn
    rcases uploadsGet_cases fsys segs with h200 | h404
    · rcases hn with hlt | hge <;> omega
    · exact h404
  · exact fun h b q => envOk_elim (envOk_progressPost h b q)
  · exact fun h b q => envOk_elim (envOk_notesPost h b q)
  · exact fun db now h lid b q => envOk_elim (envOk_reflSave db now h lid b q)
  · exact fun db now h lid b q => envOk_elim (envOk_reflSubmit db now h lid b q)
  · exact fun db now h lid b q => envOk_elim (envOk_reflResubmit db now h lid b q)
  · exact fun db h q => envOk_elim (envOk_reflSubmittedGet db h q)
  · exact fun db now h b q => envOk_elim (envOk_reflMark db now h b q)
  · exact fun h db b q => envOk_elim (envOk_sprintsCreate h db b q)
  · exact fun h db sid q => envOk_elim (envOk_sprintsDelete h db sid q)
  · exact fun h db sid b qd q => envOk_elim (envOk_sprintsActivePut h db sid b qd q)
  · exact fun db => envOk_elim (envOk_usersGet db)
  · exact fun h db uid q => envOk_elim (envOk_usersDelete h db uid q)
  · exact fun h db uid b q => envOk_elim (envOk_usersRolePut h db uid b q)

/-- Witness for `error_envelope_amended`: a concrete non-2xx response (the
notes upsert failing with a generic database error) carries the envelope. -/
theorem error_envelope_amended_check :
    non2xx (notesPost (some "5") (some ⟨some "lesson", some "1", some "hi"⟩) (some .other))
    ∧ isErrJson (notesPost (some "5") (some ⟨some "lesson", some "1", some "hi"⟩)
        (some .other)).body = true :=
  ⟨by unfold non2xx; right; decide,
   error_envelope_amended.2.2.1 (some "5") (some ⟨some "lesson", some "1", some "hi"⟩)
     (some .other) (by unfold non2xx; right; decide)⟩

/-- Counterexample to claim C1 as stated: user 7 is authenticated but not
an admin, yet `PUT /api/sprints/1/active` succeeds (200) and flips the
sprint to active in the database, and a request with no identity header at
all deletes a user with 204 and the row gone — no 403, and the writes are
performed. -/
theorem admin_gate_missing_cex :
    isAdminRow dbDemo 7 = false
    ∧ authUserId (some "7") = some 7
    ∧ (sprintsActivePut (some "7") dbDemo 1 (some ⟨true⟩) none none).1 = ⟨200, .okJson⟩
    ∧ (sprintsActivePut (some "7") dbDemo 1 (some ⟨true⟩) none none).2.sprints
        = [⟨1, "Sprint A", "desc", "uploads/a.mp4", 600, true, none⟩]
    ∧ (usersDelete none dbDemo 7 none).1.status = 204
    ∧ (usersDelete none dbDemo 7 none).2.users = [] := by decide

/-- Claim C1, amended: the sprint create/delete/active-toggle and user
delete/role-update handlers perform no authentication or admin check at
all — their outcome is identical for every value of the X-User-Id header,
and none of them ever answers 401 or 403, so any caller (admin or not,
authenticated or not) triggers the database write. -/
theorem admin_crud_ungated :
    (∀ h h2 db b q, sprintsCreate h db b q = sprintsCreate h2 db b q)
    ∧ (∀ h db b q, (((sprintsCreate h db b q).1.status == 401)
        || ((sprintsCreate h db b q).1.status == 403)) = false)
    ∧ (∀ h h2 db sid q, sprintsDelete h db sid q = sprintsDelete h2 db sid q)
    ∧ (∀ h db sid q, (((sprintsDelete h db sid q).1.status == 401)
        || ((sprintsDelete h db sid q).1.status == 403)) = false)
    ∧ (∀ h h2 db sid b qd q, sprintsActivePut h db sid b qd q = sprintsActivePut h2 db sid b qd q)
    ∧ (∀ h db sid b qd q, (((sprintsActivePut h db sid b qd q).1.status == 401)
        || ((sprintsActivePut h db sid b qd q).1.status == 403)) = false)
    ∧ (∀ h h2 db uid q, usersDelete h db uid q = usersDelete h2 db uid q)
    ∧ (∀ h db uid q, (((usersDelete h db uid q).1.status == 401)
        || ((usersDelete h db uid q).1.status == 403)) = false)
    ∧ (∀ h h2 db uid b q, usersRolePut h db uid b q = usersRolePut h2 db uid b q)
    ∧ (∀ h db uid b q, (((usersRolePut h db uid b q).1.status == 401)
        || ((usersRolePut h db uid b q).1.status == 403)) = false) := by
  refine ⟨fun _ _ _ _ _ => rfl, ?_, fun _ _ _ _ _ => rfl, ?_, fun _ _ _ _ _ _ _ => rfl, ?_,
          fun _ _ _ _ _ => rfl, ?_, fun _ _ _ _ _ _ => rfl, ?_⟩
  · intro h db b q
    unfold sprintsCreate
    try dsimp only
    repeat' split
    all_goals rfl
  · intro h db sid q
    unfold sprintsDelete
    try dsimp only
    repeat' split
    all_goals rfl
  · intro h db sid b qd q
    unfold sprintsActivePut
    try dsimp only
    repeat' split
    all_goals rfl
  · intro h db uid q
    unfold usersDelete
    try dsimp only
    repeat' split
    all_goals rfl
  · intro h db uid b q
    unfold usersRolePut
    try dsimp only
    repeat' split
    all_goals rfl

/-- Counterexample to claim C3 as stated: the notes upsert failing with the
foreign-key error `ER_NO_REFERENCED_ROW_2` answers 500 (though with the
validation-failure message), not 400. -/
theorem notes_fk_500_cex :
    notesPost (some "5") (some ⟨some "lesson", some "1", some "hi"⟩)
        (some .er_no_referenced_row_2)
      = ⟨500, .errJson "Error saving note: Validation failed. Content or User ID does not exist. (Foreign Key Check Failed)"⟩
    ∧ ((notesPost (some "5") (some ⟨some "lesson", some "1", some "hi"⟩)
        (some .er_no_referenced_row_2)).status == 400) = false := by decide

/-- Claim C3, amended: only the progress upsert maps the foreign-key error
codes to 400 with a validation-failure message; the notes upsert answers
500 for every query error (picking a foreign-key-specific message but
keeping status 500), and the reflection save/submit/resubmit handlers
answer 500 with a generic message for every query error. -/
theorem fk_error_mapping_amended :
    (∀ h uid b, authUserId h = some uid → progressBodyOk b = true →
      progressPost h (some b) (some .er_no_referenced_row_2)
          = ⟨400, .errJson "Validation failed: Sprint or User ID does not exist. (Foreign Key Check Failed)"⟩
      ∧ progressPost h (some b) (some .er_bad_null_error)
          = ⟨400, .errJson "Validation failed: Sprint or User ID does not exist. (Foreign Key Check Failed)"⟩)
    ∧ (∀ h uid b, authUserId h = some uid → notesBodyOk b = true →
      notesPost h (some b) (some .er_no_referenced_row_2)
          = ⟨500, .errJson "Error saving note: Validation failed. Content or User ID does not exist. (Foreign Key Check Failed)"⟩)
    ∧ (∀ db now h uid lid b e, authUserId h = some uid →
        draftTextOk b.reflection_text = true →
      reflSave db now h lid (some b) (some e)
          = (⟨500, .errJson "Failed to save reflection"⟩, db))
    ∧ (∀ db now h uid lid b e, authUserId h = some uid →
        trimTextOk b.reflection_text = true →
      reflSubmit db now h lid (some b) (some e)
          = (⟨500, .errJson "Failed to submit reflection"⟩, db))
    ∧ (∀ db now h uid lid b e, authUserId h = some uid →
        trimTextOk b.reflection_text = true →
      reflResubmit db now h lid (some b) (some e)
          = (⟨500, .errJson "Failed to resubmit reflection"⟩, db)) := by
  refine ⟨?_, ?_, ?_, ?_, ?_⟩
  · intro h uid b hauth hok
    unfold progressPost
    rw [hauth]
    simp [hok]
  · intro h uid b hauth hok
    unfold notesPost
    rw [hauth]
    simp [hok]
  · intro db now h uid lid b e hauth hok
    unfold reflSave
    rw [hauth]
    simp [hok]
  · intro db now h uid lid b e hauth hok
    unfold reflSubmit
    rw [hauth]
    simp [hok]
  · intro db now h uid lid b e hauth hok
    unfold reflResubmit
    rw [hauth]
    simp [hok]

/-- Witness for `fk_error_mapping_amended`: a concrete authenticated
progress save hitting a foreign-key violation answers 400 and a concrete
reflection submit hitting one answers 500. -/
theorem fk_error_mapping_amended_check :
    authUserId (some "5") = some 5
    ∧ progressBodyOk ⟨some 3, some 50, some false⟩ = true
    ∧ progressPost (some "5") (some ⟨some 3, some 50, some false⟩)
          (some .er_no_referenced_row_2)
        = ⟨400, .errJson "Validation failed: Sprint or User ID does not exist. (Foreign Key Check Failed)"⟩
    ∧ reflSubmit dbDemo 11 (some "5") "9" (some ⟨some "text"⟩) (some .er_no_referenced_row_2)
        = (⟨500, .errJson "Failed to submit reflection"⟩, dbDemo) :=
  ⟨by decide, by decide,
   (fk_error_mapping_amended.1 (some "5") 5 ⟨some 3, some 50, some false⟩
      (by decide) (by decide)).1,
   fk_error_mapping_amended.2.2.2.1 dbDemo 11 (some "5") 5 "9" ⟨some "text"⟩
      .er_no_referenced_row_2 (by decide) (by decide)⟩

lemma map_id_of_eq {α : Type} (f : α → α) :
    ∀ l : List α, (∀ a ∈ l, f a = a) → l.map f = l := by
  intro l
  induction l with
  | nil => intro _; rfl
  | cons a t ih =>
    intro hall
    simp only [List.map_cons]
    rw [hall a (by simp), ih (fun x hx => hall x (by simp [hx]))]

lemma reflSubmit_eval_none (db : Db) (now : Nat) (h : Option String) (uid : Int)
    (lid t : String) (hauth : authUserId h = some uid)
    (ht : trimTextOk (some t) = true) (hnone : findRefl db uid lid = none) :
    reflSubmit db now h lid (some ⟨some t⟩) none
      = (⟨200, .okJson⟩,
         { db with
             reflections :=
               ⟨db.nextReflId, uid, lid, t, "submitted", none, none, some now, none, now, now⟩
                 :: db.reflections,
             nextReflId := db.nextReflId + 1 }) := by
  unfold reflSubmit
  rw [hauth]
  simp [ht, hnone]

lemma reflSubmit_eval_some (db : Db) (now : Nat) (h : Option String) (uid : Int)
    (lid t : String) (r0 : ReflRow) (hauth : authUserId h = some uid)
    (ht : trimTextOk (some t) = true) (hr0 : findRefl db uid lid = some r0) :
    reflSubmit db now h lid (some ⟨some t⟩) none
      = (⟨200, .okJson⟩,
         { db with reflections := db.reflections.map (fun r =>
             if reflKey uid lid r then
               { r with reflection_text := t, status := "submitted",
                        submitted_at := some now, updated_at := now }
             else r) }) := by
  unfold reflSubmit
  rw [hauth]
  simp [ht, hr0]

lemma reflResubmit_eval_none (db : Db) (now : Nat) (h : Option String) (uid : Int)
    (lid t : String) (hauth : authUserId h = some uid)
    (ht : trimTextOk (some t) = true) (hnone : findRefl db uid lid = none) :
    reflResubmit db now h lid (some ⟨some t⟩) none
      = (⟨404, .errJson "Reflection not found"⟩, db) := by
  unfold reflResubmit
  rw [hauth]
  simp [ht, hnone]

lemma reflResubmit_eval_some (db : Db) (now : Nat) (h : Option String) (uid : Int)
    (lid t : String) (r0 : ReflRow) (hauth : authUserId h = some uid)
    (ht : trimTextOk (some t) = true) (hr0 : findRefl db uid lid = some r0) :
    reflResubmit db now h lid (some ⟨some t⟩) none
      = (⟨200, .okJson⟩,
         { db with reflections := db.reflections.map (fun r =>
             if reflKey uid lid r then
               { r with reflection_text := t, status := "submitted",
                        submitted_at := some now, updated_at := now }
             else r) }) := by
  unfold reflResubmit
  rw [hauth]
  simp [ht, hr0]

/-- Claim C5: with no existing reflection row, resubmit answers 404 and
leaves the database unchanged while submit creates the row (status
'submitted', submitted_at stamped); with an existing row, submit and
resubmit both update the text, set status 'submitted' and re-stamp
submitted_at — producing identical states — and submit is permitted from
any prior state and is idempotent. -/
theorem submit_resubmit_asymmetry (db : Db) (now : Nat) (h : Option String)
    (uid : Int) (lid t : String)
    (hauth : authUserId h = some uid)
    (ht : trimTextOk (some t) = true) :
    (findRefl db uid lid = none →
      reflResubmit db now h lid (some ⟨some t⟩) none
          = (⟨404, .errJson "Reflection not found"⟩, db)
      ∧ (reflSubmit db now h lid (some ⟨some t⟩) none).1 = ⟨200, .okJson⟩
      ∧ findRefl (reflSubmit db now h lid (some ⟨some t⟩) none).2 uid lid
          = some ⟨db.nextReflId, uid, lid, t, "submitted", none, none, some now, none, now, now⟩)
    ∧ (∀ r0, findRefl db uid lid = some r0 →
      (reflSubmit db now h lid (some ⟨some t⟩) none).1 = ⟨200, .okJson⟩
      ∧ findRefl (reflSubmit db now h lid (some ⟨some t⟩) none).2 uid lid
          = some { r0 with reflection_text := t, status := "submitted",
                           submitted_at := some now, updated_at := now }
      ∧ (reflResubmit db now h lid (some ⟨some t⟩) none).1 = ⟨200, .okJson⟩
      ∧ (reflResubmit db now h lid (some ⟨some t⟩) none).2
          = (reflSubmit db now h lid (some ⟨some t⟩) none).2)
    ∧ (reflSubmit (reflSubmit db now h lid (some ⟨some t⟩) none).2 now h lid
         (some ⟨some t⟩) none).2
        = (reflSubmit db now h lid (some ⟨some t⟩) none).2 := by
  refine ⟨?_, ?_, ?_⟩
  · intro hnone
    rw [reflResubmit_eval_none db now h uid lid t hauth ht hnone,
        reflSubmit_eval_none db now h uid lid t hauth ht hnone]
    refine ⟨rfl, rfl, ?_⟩
    unfold findRefl
    exact List.find?_cons_of_pos _ (by simp [reflKey])
  · intro r0 hr0
    rw [reflSubmit_eval_some db now h uid lid t r0 hauth ht hr0,
        reflResubmit_eval_some db now h uid lid t r0 hauth ht hr0]
    refine ⟨rfl, ?_, rfl, rfl⟩
    unfold findRefl
    rw [find?_map_upd (reflKey uid lid) _ (fun r hr => by
      simp only [reflKey] at hr ⊢
      exact hr) db.reflections]
    unfold findRefl at hr0
    rw [hr0]
    rfl
  · cases hfind : findRefl db uid lid with
    | none =>
      have hall := List.find?_eq_none.mp hfind
      rw [reflSubmit_eval_none db now h uid lid t hauth ht hfind]
      have hnew : findRefl
          { db with
              reflections :=
                ⟨db.nextReflId, uid, lid, t, "submitted", none, none, some now, none, now, now⟩
                  :: db.reflections,
              nextReflId := db.nextReflId + 1 } uid lid
          = some ⟨db.nextReflId, uid, lid, t, "submitted", none, none, some now, none, now, now⟩ := by
        unfold findRefl
        exact List.find?_cons_of_pos _ (by simp [reflKey])
      rw [reflSubmit_eval_some _ now h uid lid t _ hauth ht hnew]
      simp only [List.map_cons]
      rw [if_pos (by simp [reflKey] : reflKey uid lid
            ⟨db.nextReflId, uid, lid, t, "submitted", none, none, some now, none, now, now⟩ = true)]
      rw [map_id_of_eq _ db.reflections (fun r hr => by
        rw [if_neg (by simpa using hall r hr)])]
    | some r0 =>
      rw [reflSubmit_eval_some db now h uid lid t r0 hauth ht hfind]
      have hupd : findRefl
          { db with reflections := db.reflections.map (fun r =>
              if reflKey uid lid r then
                { r with reflection_text := t, status := "submitted",
                         submitted_at := some now, updated_at := now }
              else r) } uid lid
          = some { r0 with reflection_text := t, status := "submitted",
                           submitted_at := some now, updated_at := now } := by
        unfold findRefl
        rw [find?_map_upd (reflKey uid lid) _ (fun r hr => by
          simp only [reflKey] at hr ⊢
          exact hr) db.reflections]
        unfold findRefl at hfind
        rw [hfind]
        rfl
      rw [reflSubmit_eval_some _ now h uid lid t _ hauth ht hupd]
      rw [List.map_map]
      have hcong := List.map_congr_left (l := db.reflections)
        (f := (fun r =>
            if reflKey uid lid r then
              { r with reflection_text := t, status := "submitted",
                       submitted_at := some now, updated_at := now }
            else r) ∘ (fun r =>
            if reflKey uid lid r then
              { r with reflection_text := t, status := "submitted",
                       submitted_at := some now, updated_at := now }
            else r))
        (g := fun r =>
            if reflKey uid lid r then
              { r with reflection_text := t, status := "submitted",
                       submitted_at := some now, updated_at := now }
            else r)
        (fun r hr => by
          simp only [Function.comp]
          by_cases hp : reflKey uid lid r
          · rw [if_pos hp, if_pos (by simpa [reflKey] using hp)]
          · rw [if_neg hp, if_neg hp])
      rw [hcong]

/-- Witness for `submit_resubmit_asymmetry`: on a database with no
reflection for (7, "9"), resubmit is a 404 no-op while submit creates the
submitted row. -/
theorem submit_resubmit_asymmetry_check :
    authUserId (some "7") = some 7
    ∧ trimTextOk (some "hello") = true
    ∧ findRefl dbDemo 7 "9" = none
    ∧ reflResubmit dbDemo 0 (some "7") "9" (some ⟨some "hello"⟩) none
        = (⟨404, .errJson "Reflection not found"⟩, dbDemo) :=
  ⟨by decide, by decide, by decide,
   ((submit_resubmit_asymmetry dbDemo 0 (some "7") 7 "9" "hello"
      (by decide) (by decide)).1 (by decide)).1⟩

/-- Claim C6: for an authenticated admin, mark answers 400 when
reflection_id, score or admin_feedback is missing (or feedback empty),
400 when the score lies outside [0,10], 400 when the status is neither
'marked' nor 'rejected', 404 when no reflection has the given id, and
otherwise 200 while updating score, feedback and status and stamping
marked_at; a non-admin caller gets 403, which is distinct from the 404
used for "not found". -/
theorem mark_contract (db : Db) (now : Nat) (h : Option String) (uid : Int)
    (b : MarkBody) (rid s : Int) (fb st : String)
    (hauth : authUserId h = some uid) :
    (isAdminRow db uid = true →
      ((b.reflection_id = none ∨ b.score = none ∨ b.admin_feedback = none
          ∨ b.admin_feedback = some "") →
        reflMark db now h (some b) none
          = (⟨400, .errJson "Reflection ID, score, and feedback are required"⟩, db))
      ∧ (markBodyOk b = true → b.score = some s → (s < 0 ∨ 10 < s) →
        reflMark db now h (some b) none
          = (⟨400, .errJson "Score must be between 0 and 10"⟩, db))
      ∧ (markBodyOk b = true → b.score = some s → 0 ≤ s → s ≤ 10 →
          (b.status == some "marked" || b.status == some "rejected") = false →
        reflMark db now h (some b) none
          = (⟨400, .errJson "Status must be 'marked' or 'rejected'"⟩, db))
      ∧ (markBodyOk b = true → b.reflection_id = some rid → b.score = some s →
          0 ≤ s → s ≤ 10 → b.admin_feedback = some fb → b.status = some st →
          (st = "marked" ∨ st = "rejected") →
          findReflById db rid = none →
        reflMark db now h (some b) none
          = (⟨404, .errJson "Reflection not found"⟩, db))
      ∧ (∀ r0, markBodyOk b = true → b.reflection_id = some rid → b.score = some s →
          0 ≤ s → s ≤ 10 → b.admin_feedback = some fb → b.status = some st →
          (st = "marked" ∨ st = "rejected") →
          findReflById db rid = some r0 →
        (reflMark db now h (some b) none).1 = ⟨200, .okJson⟩
        ∧ findReflById (reflMark db now h (some b) none).2 rid
            = some { r0 with score := some s, admin_feedback := some fb,
                             status := st, marked_at := some now, updated_at := now }))
    ∧ (isAdminRow db uid = false →
        reflMark db now h (some b) none = (⟨403, .errJson "Admin access required"⟩, db)
        ∧ ((reflMark db now h (some b) none).1.status == 404) = false) := by
  constructor
  · intro hadmin
    refine ⟨?_, ?_, ?_, ?_, ?_⟩
    · intro hmiss
      have hok : markBodyOk b = false := by
        rcases hmiss with hm | hm | hm | hm <;> simp [markBodyOk, hm]
      unfold reflMark
      rw [hauth]
      simp [hadmin, hok]
    · intro hok hscore hrange
      unfold reflMark
      rw [hauth]
      simp only [hadmin, hok, hscore, Option.getD_some, Bool.true_eq_false, if_false]
      rw [if_pos hrange]
    · intro hok hscore h0 h10 hbad
      unfold reflMark
      rw [hauth]
      simp only [hadmin, hok, hscore, hbad, Option.getD_some, Bool.true_eq_false, if_false]
      rw [if_neg (by omega : ¬(s < 0 ∨ 10 < s))]
      rw [if_pos trivial]
    · intro hok hrid hscore h0 h10 hfb hstatus hst hnotfound
      have hgood : ((some st == some "marked" || some st == some "rejected") = false) = False := by
        rcases hst with he | he <;> simp [he]
      unfold reflMark
      rw [hauth]
      simp only [hadmin, hok, hscore, hrid, hstatus, hgood, Option.getD_some,
        Bool.true_eq_false, if_false]
      rw [if_neg (by omega : ¬(s < 0 ∨ 10 < s))]
      unfold findReflById at hnotfound
      simp only [hnotfound]
    · intro r0 hok hrid hscore h0 h10 hfb hstatus hst hfound
      have hgood : ((some st == some "marked" || some st == some "rejected") = false) = False := by
        rcases hst with he | he <;> simp [he]
      have heval : reflMark db now h (some b) none
          = (⟨200, .okJson⟩,
             { db with reflections := db.reflections.map (fun r =>
                 if idKey rid r then
                   { r with score := some s, admin_feedback := some fb,
                            status := st, marked_at := some now, updated_at := now }
                 else r) }) := by
        unfold reflMark
        rw [hauth]
        simp only [hadmin, hok, hscore, hrid, hfb, hstatus, hgood, Option.getD_some,
          Bool.true_eq_false, if_false]
        rw [if_neg (by omega : ¬(s < 0 ∨ 10 < s))]
        unfold findReflById at hfound
        simp only [hfound]
      rw [heval]
      refine ⟨rfl, ?_⟩
      unfold findReflById
      rw [find?_map_upd (idKey rid) _ (fun r hr => by
        simp only [idKey] at hr ⊢
        exact hr) db.reflections]
      unfold findReflById at hfound
      rw [hfound]
      rfl
  · intro hadmin
    have heval : reflMark db now h (some b) none
        = (⟨403, .errJson "Admin access required"⟩, db) := by
      unfold reflMark
      rw [hauth]
      simp [hadmin]
    rw [heval]
    exact ⟨rfl, rfl⟩

/-- Witness for `mark_contract`: the admin (id 2) marks reflection 5 of
`dbAdmin` with score 7 and feedback "Good"; the row is updated and
marked_at stamped. -/
theorem mark_contract_check :
    authUserId (some "2") = some 2
    ∧ isAdminRow dbAdmin 2 = true
    ∧ markBodyOk ⟨some 5, some 7, some "Good", some "marked"⟩ = true
    ∧ (reflMark dbAdmin 11 (some "2")
        (some ⟨some 5, some 7, some "Good", some "marked"⟩) none).1 = ⟨200, .okJson⟩
    ∧ findReflById (reflMark dbAdmin 11 (some "2")
        (some ⟨some 5, some 7, some "Good", some "marked"⟩) none).2 5
        = some ⟨5, 7, "9", "my thoughts", "marked", some 7, some "Good", some 10, some 11, 10, 11⟩ :=
  ⟨by decide, by decide, by decide,
   (((mark_contract dbAdmin 11 (some "2") 2 ⟨some 5, some 7, some "Good", some "marked"⟩
        5 7 "Good" "marked" (by decide)).1 (by decide)).2.2.2.2
      ⟨5, 7, "9", "my thoughts", "submitted", none, none, some 10, none, 10, 10⟩
      (by decide) (by decide) (by decide) (by decide) (by decide) (by decide) (by decide)
      (Or.inl rfl) (by decide)).1,
   (((mark_contract dbAdmin 11 (some "2") 2 ⟨some 5, some 7, some "Good", some "marked"⟩
        5 7 "Good" "marked" (by decide)).1 (by decide)).2.2.2.2
      ⟨5, 7, "9", "my thoughts", "submitted", none, none, some 10, none, 10, 10⟩
      (by decide) (by decide) (by decide) (by decide) (by decide) (by decide) (by decide)
      (Or.inl rfl) (by decide)).2⟩

lemma sprKey_false_of_ne {sid : Int} {s : SprintRow} (hp : ¬ sprKey sid s = true) :
    sprKey sid s = false := by
  cases hq : sprKey sid s
  · rfl
  · exact absurd hq hp

lemma deact_id (sid : Int) (s : SprintRow) :
    ((fun x => if sprKey sid x then x else { x with is_active := false }) s).id = s.id := by
  by_cases hp : sprKey sid s = true
  · simp only [hp, if_true]
  · simp only [sprKey_false_of_ne hp, Bool.false_eq_true, if_false]

lemma sprKey_deact (sid : Int) (s : SprintRow) :
    sprKey sid ((fun x => if sprKey sid x then x else { x with is_active := false }) s)
      = sprKey sid s := by
  by_cases hp : sprKey sid s = true
  · simp only [hp, if_true]
  · simp only [sprKey_false_of_ne hp, Bool.false_eq_true, if_false]
    simp only [sprKey] at hp ⊢
    exact sprKey_false_of_ne hp

lemma actdeact_active (sid : Int) (s : SprintRow) :
    ((fun x => if sprKey sid x then { x with is_active := true } else x)
      ((fun x => if sprKey sid x then x else { x with is_active := false }) s)).is_active
    = sprKey sid s := by
  by_cases hp : sprKey sid s = true
  · simp only [hp, if_true]
  · have hp' := sprKey_false_of_ne hp
    simp only [hp', Bool.false_eq_true, if_false]
    have houter : sprKey sid { s with is_active := false } = false := by
      simp only [sprKey] at hp' ⊢
      exact hp'
    simp only [houter, Bool.false_eq_true, if_false]

lemma actdeact_id (sid : Int) (s : SprintRow) :
    ((fun x => if sprKey sid x then { x with is_active := true } else x)
      ((fun x => if sprKey sid x then x else { x with is_active := false }) s)).id
    = s.id := by
  by_cases hp : sprKey sid s = true
  · simp only [hp, if_true]
  · have hp' := sprKey_false_of_ne hp
    simp only [hp', Bool.false_eq_true, if_false]
    have houter : sprKey sid { s with is_active := false } = false := by
      simp only [sprKey] at hp' ⊢
      exact hp'
    simp only [houter, Bool.false_eq_true, if_false]

/-- Counterexample to claim C7 as stated: the handler only logs the error
of the deactivate-others UPDATE and proceeds to activate the target, so
when that query fails (statement rolled back, rows unchanged) while the
target UPDATE succeeds, activating sprint 2 of `dbAdmin` (where sprint 1
was active) answers 200 yet leaves two active sprints. -/
theorem single_active_cex :
    dbAdmin.sprints.countP (fun s => s.is_active) ≤ 1
    ∧ (sprintsActivePut none dbAdmin 2 (some ⟨true⟩) (some .other) none).1.status = 200
    ∧ (sprintsActivePut none dbAdmin 2 (some ⟨true⟩) (some .other) none).2.sprints.countP
        (fun s => s.is_active) = 2 := by decide

/-- Claim C7, amended: from a state with at most one active sprint (and
distinct sprint ids, the table's primary-key invariant), a successful
activation of sprint `sid` leaves exactly one active sprint, namely `sid`,
provided the deactivate-others UPDATE the handler issues first did not
fail — its error is only logged, so a 200 after a failed deactivation can
leave the prior active sprint active; a plain deactivation preserves the
at-most-one-active invariant whatever its query outcome. -/
theorem single_active_sprint (db : Db) (h : Option String) (sid : Int)
    (hnodup : (db.sprints.map (fun s => s.id)).Nodup)
    (hatmost : db.sprints.countP (fun s => s.is_active) ≤ 1) :
    (∀ q, (sprintsActivePut h db sid (some ⟨true⟩) none q).1.status = 200 →
      (sprintsActivePut h db sid (some ⟨true⟩) none q).2.sprints.countP
          (fun s => s.is_active) = 1
      ∧ ∀ sp ∈ (sprintsActivePut h db sid (some ⟨true⟩) none q).2.sprints,
          sp.is_active = true → sp.id = sid)
    ∧ (∀ qd q, (sprintsActivePut h db sid (some ⟨false⟩) qd q).2.sprints.countP
        (fun s => s.is_active) ≤ 1) := by
  constructor
  · intro q
    unfold sprintsActivePut
    dsimp only
    rw [if_pos (show (⟨true⟩ : ActiveBody).shouldActivate = true from rfl)]
    cases q with
    | some e =>
      intro h200
      simp at h200
    | none =>
      dsimp only
      split
      · intro h200
        simp at h200
      · next s1 hfind =>
        intro _
        constructor
        · rw [List.map_map, List.countP_map]
          have hpt : ((fun s => s.is_active) ∘
              ((fun x => if sprKey sid x then { x with is_active := true } else x) ∘
               (fun x => if sprKey sid x then x else { x with is_active := false })))
              = sprKey sid := by
            funext s
            exact actdeact_active sid s
          rw [hpt]
          have hcnt : db.sprints.countP (sprKey sid)
              = (db.sprints.map (fun s => s.id)).count sid := by
            rw [List.count_eq_countP, List.countP_map]
            rfl
          rw [hcnt]
          have hs1mem := List.mem_of_find?_eq_some hfind
          have hs1key := List.find?_some hfind
          obtain ⟨s0, hs0, hs0eq⟩ := List.mem_map.mp hs1mem
          have hid1 : s1.id = sid := by
            simpa [sprKey] using hs1key
          have hid0 : s0.id = sid := by
            have hdid := deact_id sid s0
            have hs0r : ((fun x => if sprKey sid x then x
                else { x with is_active := false }) s0) = s1 := hs0eq
            rw [hs0r] at hdid
            omega
          refine List.count_eq_one_of_mem hnodup ?_
          rw [← hid0]
          exact List.mem_map_of_mem (fun s => s.id) hs0
        · intro sp hsp hact
          rw [List.map_map] at hsp
          obtain ⟨s0, hs0, hs0eq⟩ := List.mem_map.mp hsp
          have hs0r : ((fun x => if sprKey sid x then { x with is_active := true } else x)
              ((fun x => if sprKey sid x then x
                else { x with is_active := false }) s0)) = sp := hs0eq
          have hkey : sprKey sid s0 = true := by
            have hA := actdeact_active sid s0
            rw [hs0r, hact] at hA
            exact hA.symm
          have hidp : sp.id = s0.id := by
            have hB := actdeact_id sid s0
            rw [hs0r] at hB
            exact hB
          have hs0id : s0.id = sid := by
            simpa [sprKey] using hkey
          omega
  · intro qd q
    unfold sprintsActivePut
    dsimp only
    rw [if_neg (show ¬ (⟨false⟩ : ActiveBody).shouldActivate = true by decide)]
    cases q with
    | some e => exact hatmost
    | none =>
      dsimp only
      split
      · exact hatmost
      · next s1 hfind =>
        rw [List.countP_map]
        refine le_trans (List.countP_mono_left ?_) hatmost
        intro a ha hcomp
        by_cases hp : sprKey sid a = true
        · exfalso
          simp only [Function.comp, hp, if_true] at hcomp
          exact Bool.noConfusion hcomp
        · simpa only [Function.comp, sprKey_false_of_ne hp, Bool.false_eq_true,
            if_false] using hcomp

/-- Witness for `single_active_sprint`: activating sprint 2 of `dbAdmin`
(where sprint 1 was the active one), with the deactivation query
succeeding, answers 200 and leaves exactly one active sprint. -/
theorem single_active_sprint_check :
    (dbAdmin.sprints.map (fun s => s.id)).Nodup
    ∧ dbAdmin.sprints.countP (fun s => s.is_active) ≤ 1
    ∧ (sprintsActivePut none dbAdmin 2 (some ⟨true⟩) none none).1.status = 200
    ∧ (sprintsActivePut none dbAdmin 2 (some ⟨true⟩) none none).2.sprints.countP
        (fun s => s.is_active) = 1 :=
  ⟨by decide, by decide, by decide,
   ((single_active_sprint dbAdmin none 2 (by decide) (by decide)).1 none (by decide)).1⟩

/-- Claim C9: every sprint created with 201 stores a max_duration_seconds
equal to the conversion of the supplied max_duration_minutes, and that
conversion always lies in (0, 3600]: a NaN parse or a non-positive result
becomes 600, and a result above 3600 is capped at 3600. -/
theorem sprint_duration_bounded (h : Option String) (db : Db)
    (bq : Option SprintBody) (q : Option DbErr) :
    ((sprintsCreate h db bq q).1.status = 201 →
      ∃ b m, bq = some b ∧ b.max_duration_minutes = some m
        ∧ ((sprintsCreate h db bq q).2.sprints.head?.map
            (fun s => s.max_duration_seconds)) = some (durationSeconds m)
        ∧ 0 < durationSeconds m ∧ durationSeconds m ≤ 3600)
    ∧ (∀ m, jsParseInt m = none → durationSeconds m = 600)
    ∧ (∀ m v, jsParseInt m = some v → v * 60 ≤ 0 → durationSeconds m = 600)
    ∧ (∀ m v, jsParseInt m = some v → 3600 < v * 60 → durationSeconds m = 3600)
    ∧ (∀ m, 0 < durationSeconds m ∧ durationSeconds m ≤ 3600) := by
  have hbound : ∀ m, 0 < durationSeconds m ∧ durationSeconds m ≤ 3600 := by
    intro m
    unfold durationSeconds
    cases hv : jsParseInt m with
    | none => constructor <;> decide
    | some v =>
      dsimp only
      split_ifs <;> omega
  refine ⟨?_, ?_, ?_, ?_, hbound⟩
  · cases hbq : bq with
    | none =>
      intro h201
      unfold sprintsCreate at h201
      simp at h201
    | some b =>
      intro h201
      by_cases hok : sprintBodyOk b = true
      · cases q with
        | some e =>
          exfalso
          unfold sprintsCreate at h201
          simp [hok] at h201
        | none =>
          cases hmm : b.max_duration_minutes with
          | none =>
            exfalso
            simp [sprintBodyOk, hmm] at hok
          | some m =>
            refine ⟨b, m, rfl, hmm, ?_, (hbound m).1, (hbound m).2⟩
            unfold sprintsCreate
            simp [hok, hmm]
      · exfalso
        have hok' : sprintBodyOk b = false := by
          cases hq2 : sprintBodyOk b
          · rfl
          · exact absurd hq2 hok
        unfold sprintsCreate at h201
        simp [hok'] at h201
  · intro m hm
    unfold durationSeconds
    rw [hm]
  · intro m v hm hle
    unfold durationSeconds
    rw [hm]
    dsimp only
    rw [if_pos hle]
  · intro m v hm hgt
    unfold durationSeconds
    rw [hm]
    dsimp only
    rw [if_neg (by omega : ¬ v * 60 ≤ 0), if_pos hgt]

/-- Witness for `sprint_duration_bounded`: creating a sprint with 90
minutes stores the 3600-second cap, and non-positive minutes fall back to
600 seconds. -/
theorem sprint_duration_bounded_check :
    (sprintsCreate none dbDemo
        (some ⟨some "T", some "D", some "u.mp4", some "90", none⟩) none).1.status = 201
    ∧ 0 < durationSeconds "90" ∧ durationSeconds "90" ≤ 3600
    ∧ durationSeconds "0" = 600 :=
  ⟨by decide,
   ((sprint_duration_bounded none dbDemo
      (some ⟨some "T", some "D", some "u.mp4", some "90", none⟩) none).2.2.2.2 "90").1,
   ((sprint_duration_bounded none dbDemo
      (some ⟨some "T", some "D", some "u.mp4", some "90", none⟩) none).2.2.2.2 "90").2,
   (sprint_duration_bounded none dbDemo
      (some ⟨some "T", some "D", some "u.mp4", some "90", none⟩) none).2.2.1 "0" 0
      (by decide) (by decide)⟩

/-- Claim C10: the id=1 admin fallback lives only in the GET /api/users
listing (role shown as COALESCE(role, id=1 ? 'admin' : 'user')); the
`authorizeAdmin` gate of the admin endpoints requires a users row whose
role is literally 'admin', so a caller with id 1 and a NULL role is listed
as admin yet rejected with 403 by reflections/mark and
reflections/submitted. -/
theorem admin_fallback_scope (db : Db) (u : UserRow) (now : Nat) (h : Option String)
    (b : MarkBody)
    (hfind : db.users.find? (userKey 1) = some u)
    (hrole : u.role = none)
    (hauth : authUserId h = some 1) :
    listedRole u = "admin"
    ∧ (⟨u.id, u.name, u.email, u.streak_days, "admin"⟩ : UserView) ∈ (usersGet db).2
    ∧ isAdminRow db 1 = false
    ∧ reflMark db now h (some b) none = (⟨403, .errJson "Admin access required"⟩, db)
    ∧ (reflSubmittedGet db h none).1 = ⟨403, .errJson "Admin access required"⟩ := by
  have hid : u.id = 1 := by
    have hkey := List.find?_some hfind
    simpa [userKey] using hkey
  have hlisted : listedRole u = "admin" := by
    simp [listedRole, hrole, hid]
  have hadm : isAdminRow db 1 = false := by
    unfold isAdminRow
    rw [hfind]
    simp [hrole]
  refine ⟨hlisted, ?_, hadm, ?_, ?_⟩
  · have hmem := List.mem_of_find?_eq_some hfind
    have hmap := List.mem_map_of_mem
      (fun w => (⟨w.id, w.name, w.email, w.streak_days, listedRole w⟩ : UserView)) hmem
    unfold usersGet
    dsimp only
    rw [← hlisted]
    exact hmap
  · unfold reflMark
    rw [hauth]
    simp [hadm]
  · unfold reflSubmittedGet
    rw [hauth]
    simp [hadm]

/-- Witness for `admin_fallback_scope`: in `dbNullRole`, user 1 has a NULL
role, is listed as admin, yet is rejected by the admin gate. -/
theorem admin_fallback_scope_check :
    dbNullRole.users.find? (userKey 1) = some ⟨1, "Root", "root@example.com", none, 3⟩
    ∧ authUserId (some "1") = some 1
    ∧ isAdminRow dbNullRole 1 = false
    ∧ (reflSubmittedGet dbNullRole (some "1") none).1
        = ⟨403, .errJson "Admin access required"⟩ :=
  ⟨by decide, by decide,
   (admin_fallback_scope dbNullRole ⟨1, "Root", "root@example.com", none, 3⟩ 0 (some "1")
      ⟨some 5, some 7, some "G", some "marked"⟩ (by decide) rfl (by decide)).2.2.1,
   (admin_fallback_scope dbNullRole ⟨1, "Root", "root@example.com", none, 3⟩ 0 (some "1")
      ⟨some 5, some 7, some "G", some "marked"⟩ (by decide) rfl (by decide)).2.2.2.2⟩

end SkillSprint
